import Mathlib

/-!
A shallow embedding of the userspace TCP endpoint from `src/tcp.rs` and
`src/lib.rs` of the `rust-tcp` crate, together with theorems settling the
specification claims about it.

Conventions of the embedding:
* Machine integers are `Nat` with explicit reduction modulo `2^32` (`u32`)
  or `2^64` (`usize`) at every point where the Rust release profile wraps.
* Operations that can panic (a failed `assert!`, an out-of-bounds slice
  index) return `Option`; `none` marks the panic.  Debug-profile overflow
  aborts are noted in comments where they would fire earlier than the
  release-profile panic modelled here.
* Instants are nanosecond counts (`Instant` / `Duration`), passed in as an
  explicit `now` parameter; `elapsed` becomes truncated subtraction.
* The tun device is abstracted away: an emission is returned as a
  `Segment` value instead of being written to the wire, and `nic.send`
  never fails (tun loss is out of scope of the claims).
-/

namespace RustTcp

/-- Modulus of `u32` arithmetic. -/
def M32 : Nat := 4294967296

/-- Modulus of `usize` (64-bit) arithmetic. -/
def M64 : Nat := 18446744073709551616

/-- `u32::wrapping_add`. -/
def wrapping_add (a b : Nat) : Nat := (a + b) % M32

/-- `u32::wrapping_sub`. -/
def wrapping_sub (a b : Nat) : Nat := (a % M32 + M32 - b % M32) % M32

/-- `tcp.rs::wrapping_lt`.  The source compares `lhs.wrapping_sub(rhs)`
against the literal `2 ^ 31`; in Rust `^` is bitwise XOR, so the constant
is `Nat.xor 2 31 = 29`, not `2^31`. -/
def wrapping_lt (lhs rhs : Nat) : Bool :=
  decide (wrapping_sub lhs rhs > Nat.xor 2 31)

/-- `tcp.rs::is_between_wrapped`. -/
def is_between_wrapped (start x e : Nat) : Bool :=
  wrapping_lt start x && wrapping_lt x e

/-- Segment length as computed at the top of `Connection::on_packet`:
the payload length (cast `as u32`), plus one if FIN is set, plus one if
SYN is set. -/
def seg_len (dataLen : Nat) (syn fin : Bool) : Nat :=
  let slen := dataLen % M32
  let slen := if fin then wrapping_add slen 1 else slen
  if syn then wrapping_add slen 1 else slen

/-- The segment acceptance test of `Connection::on_packet`
(tcp.rs lines 250-275), as a function of `recv.nxt`, `recv.wnd`, the
segment sequence number `seqn` and the segment length `slen`.  The source
computes `seqn + slen - 1` with plain `u32` arithmetic; the release
profile wraps, which is `wrapping_sub (wrapping_add seqn slen) 1` here. -/
def segment_okay (recvNxt recvWnd seqn slen : Nat) : Bool :=
  let wend := wrapping_add recvNxt recvWnd
  let nxt := wrapping_sub recvNxt 1
  if slen = 0 then
    if recvWnd = 0 then decide (seqn = recvNxt)
    else is_between_wrapped nxt seqn wend
  else
    if recvWnd = 0 then false
    else
      is_between_wrapped nxt seqn wend ||
        is_between_wrapped nxt (wrapping_sub (wrapping_add seqn slen) 1) wend

/-- `tcp.rs::State`. -/
inductive State where
  | SyncRcvd
  | Estab
  | FinWait1
  | FinWait2
  | TimeWait
  deriving DecidableEq

/-- The `io::ErrorKind` values produced by the code under scrutiny. -/
inductive IoErr where
  | ConnectionAborted
  | WouldBlock
  deriving DecidableEq

/-- `tcp.rs::SendSequenceSpace`. -/
structure SendSequenceSpace where
  una : Nat
  nxt : Nat
  wnd : Nat
  up : Bool
  wl1 : Nat
  wl2 : Nat
  iss : Nat
  deriving DecidableEq

/-- `tcp.rs::RecvSequenceSpace`. -/
structure RecvSequenceSpace where
  nxt : Nat
  wnd : Nat
  up : Bool
  irs : Nat
  deriving DecidableEq

/-- The fields of an `etherparse::TcpHeader` that the code reads or
writes: used both for the retained header prototype and for the header
slice of an incoming segment. -/
structure TcpHeader where
  source_port : Nat
  destination_port : Nat
  sequence_number : Nat
  acknowledgment_number : Nat
  syn : Bool
  fin : Bool
  ack : Bool
  rst : Bool
  window_size : Nat
  deriving DecidableEq

/-- The fields of the retained `Ipv4Header` prototype the code sets
(addresses swapped at accept, TTL 64). -/
structure Ipv4Proto where
  source : Nat
  destination : Nat
  ttl : Nat
  deriving DecidableEq

/-- `tcp.rs::Timers`.  `send_tiems` (sic) is a `BTreeMap<u32, Instant>`,
modelled as an association list kept sorted by key; `srtt` is the
smoothed RTT in nanoseconds. -/
structure Timers where
  last_send : Nat
  send_tiems : List (Nat × Nat)
  srtt : Nat
  deriving DecidableEq

/-- `tcp.rs::Connection`. -/
structure Connection where
  send : SendSequenceSpace
  recv : RecvSequenceSpace
  ip : Ipv4Proto
  tcp : TcpHeader
  timer : Timers
  state : State
  closed : Bool
  incoming : List Nat
  unacked : List Nat
  closed_at : Option Nat
  deriving DecidableEq

/-- A TCP segment as put on the wire by `Connection::write`: the header
fields at emission time plus the payload bytes actually written. -/
structure Segment where
  source_port : Nat
  destination_port : Nat
  seq : Nat
  ack : Nat
  syn : Bool
  fin : Bool
  ackflag : Bool
  rst : Bool
  payload : List Nat
  deriving DecidableEq

/-- `BTreeMap::insert`: insert into the sorted association list,
replacing an existing binding of the same key. -/
def btInsert (k v : Nat) : List (Nat × Nat) → List (Nat × Nat)
  | [] => [(k, v)]
  | (k2, v2) :: rest =>
    if k < k2 then (k, v) :: (k2, v2) :: rest
    else if k = k2 then (k, v) :: rest
    else (k2, v2) :: btInsert k v rest

/-- `BTreeMap::get`-style lookup in the association list. -/
def btLookup (k : Nat) : List (Nat × Nat) → Option Nat
  | [] => none
  | (k2, v2) :: rest => if k = k2 then some v2 else btLookup k rest

/-- `BTreeMap::range(k..).next()`: the entry with the smallest key
that is at least `k` (the list is sorted by key). -/
def btFirstGE (k : Nat) : List (Nat × Nat) → Option (Nat × Nat)
  | [] => none
  | (k2, v2) :: rest => if k ≤ k2 then some (k2, v2) else btFirstGE k rest

/-- The `send_tiems.retain(..)` call of `Connection::on_packet`
(tcp.rs lines 339-349): walk the map in ascending key order, drop every
entry whose key lies in the wrapped interval `(una, ackn)`, and fold the
smoothed-RTT update `srtt := (8*srtt + 2*elapsed) / 10` over the dropped
entries.  `sent.elapsed()` is `now - sent`. -/
def retainUpdate (una ackn now : Nat) : List (Nat × Nat) → Nat → List (Nat × Nat) × Nat
  | [], srtt => ([], srtt)
  | (seq, sent) :: rest, srtt =>
    if is_between_wrapped una seq ackn then
      retainUpdate una ackn now rest ((8 * srtt + 2 * (now - sent)) / 10)
    else
      let pr := retainUpdate una ackn now rest srtt
      ((seq, sent) :: pr.1, pr.2)

/-- `Connection::is_rev_closed`. -/
def Connection.is_rev_closed (c : Connection) : Bool :=
  decide (c.state = State.TimeWait)

/-- `Connection::availablity` (sic).  The source sets only the READ bit
(iff the receive side is closed or `incoming` is non-empty); the WRITE
bit is never set, so the bitset is modelled as the READ `Bool`. -/
def Connection.availablity (c : Connection) : Bool :=
  c.is_rev_closed || !c.incoming.isEmpty

/-- `Connection::close` (tcp.rs lines 69-85): sets `closed` before
matching on the state; the wildcard arm (only `TimeWait` remains)
returns a connection-aborted error. -/
def Connection.close (c : Connection) : Except IoErr Unit × Connection :=
  let c1 : Connection := { c with closed := true }
  match c1.state with
  | State.SyncRcvd => (Except.ok (), { c1 with state := State.FinWait1 })
  | State.Estab => (Except.ok (), { c1 with state := State.FinWait1 })
  | State.FinWait1 => (Except.ok (), c1)
  | State.FinWait2 => (Except.ok (), c1)
  | State.TimeWait => (Except.error IoErr.ConnectionAborted, c1)

/-- Result of `Connection::write`: the updated connection, the segment
emitted on the wire, and the `Ok` value (number of payload bytes
written). -/
structure WriteResult where
  conn : Connection
  seg : Segment
  payload_bytes : Nat
  deriving DecidableEq

/-- `Connection::write` (tcp.rs lines 488-543).  The 1500-byte cursor
holds a 20-byte IPv4 header and a 20-byte option-free TCP header, so
`cursor.write(payload)` writes `min (payload.length) 1460` bytes; the
`set_payload_len` and checksum `expect`s cannot fire at these sizes.
The emitted header carries the prototype flags before they are cleared;
afterwards a set SYN or FIN advances `send.nxt` by one and is cleared,
then `send.nxt` is bumped to `next_seq` under `wrapping_lt`, and the
emission instant is recorded under `seqn` in `send_tiems`. -/
def Connection.write (c : Connection) (now seqn : Nat) (payload : List Nat) : WriteResult :=
  let tcp0 : TcpHeader :=
    { c.tcp with sequence_number := seqn, acknowledgment_number := c.recv.nxt }
  let payload_bytes := min payload.length 1460
  let seg : Segment :=
    { source_port := tcp0.source_port, destination_port := tcp0.destination_port,
      seq := seqn, ack := c.recv.nxt, syn := tcp0.syn, fin := tcp0.fin,
      ackflag := tcp0.ack, rst := tcp0.rst, payload := payload.take payload_bytes }
  let next_seq := wrapping_add seqn payload_bytes
  let nxt1 := if tcp0.syn then wrapping_add c.send.nxt 1 else c.send.nxt
  let tcp1 := if tcp0.syn then { tcp0 with syn := false } else tcp0
  let nxt2 := if tcp1.fin then wrapping_add nxt1 1 else nxt1
  let tcp2 := if tcp1.fin then { tcp1 with fin := false } else tcp1
  let nxt3 := if wrapping_lt nxt2 next_seq then next_seq else nxt2
  { conn := { c with
      tcp := tcp2,
      send := { c.send with nxt := nxt3 },
      timer := { c.timer with send_tiems := btInsert seqn now c.timer.send_tiems } },
    seg := seg,
    payload_bytes := payload_bytes }

/-- `Connection::on_tick` (tcp.rs lines 167-230).  `none` marks a panic:
the slice `payload[nunacked .. nunacked+send]` is taken only when in
bounds.  The `usize` subtraction `unacked.len() - nunacked` and the
`u32` subtraction `send.wnd - nunacked` are modelled with release-profile
wrapping (a debug build would already abort on underflow there). -/
def Connection.on_tick (c : Connection) (now : Nat) : Option (Connection × List Segment) :=
  match c.state with
  | State.FinWait2 => some (c, [])
  | State.TimeWait => some (c, [])
  | _ =>
    let nunacked := wrapping_sub c.send.nxt c.send.una
    let unsent := (c.unacked.length + M64 - nunacked % M64) % M64
    let waited_for := (btFirstGE c.send.una c.timer.send_tiems).map (fun p => now - p.2)
    let should_retransmit :=
      match waited_for with
      | some w => decide (w > 1000000000) && decide (w > 15 * c.timer.srtt / 10)
      | none => false
    if should_retransmit then
      let resend := min c.unacked.length c.send.wnd
      let c1 :=
        if resend < c.send.wnd ∧ c.closed then
          { c with tcp := { c.tcp with fin := true },
                   closed_at := some (wrapping_add c.send.una c.unacked.length) }
        else c
      let r := c1.write now c1.send.una (c1.unacked.take resend)
      some ({ r.conn with send := { r.conn.send with nxt := wrapping_add c1.send.una c1.send.wnd } },
            [r.seg])
    else
      if unsent = 0 ∧ c.closed_at.isSome then some (c, [])
      else
        let allowed := wrapping_sub c.send.wnd nunacked
        if allowed = 0 then some (c, [])
        else
          let send := min unsent allowed
          let c1 :=
            if send < allowed ∧ c.closed ∧ c.closed_at.isNone then
              { c with tcp := { c.tcp with fin := true },
                       closed_at := some (wrapping_add c.send.nxt unsent) }
            else c
          if nunacked + send ≤ c1.unacked.length then
            let r := c1.write now c1.send.nxt ((c1.unacked.drop nunacked).take send)
            some (r.conn, [r.seg])
          else none

/-- `Connection::on_packet` (tcp.rs lines 232-422).  Returns the updated
connection, the emitted segments in order, and the returned availability;
`none` marks a panic (the `assert!(data.is_empty())` on a SYN, or the
`assert_eq!(unread_data_at, data.len() + 1)` in the data-delivery step).
`(recv.nxt - seqn) as usize` wraps modulo `2^32` in the release profile
(a debug build would abort on the underflow instead, at the same
inputs). -/
def Connection.on_packet (c : Connection) (now : Nat) (tcph : TcpHeader) (data : List Nat) :
    Option (Connection × List Segment × Bool) :=
  let seqn := tcph.sequence_number
  let slen := seg_len data.length tcph.syn tcph.fin
  let okay := segment_okay c.recv.nxt c.recv.wnd seqn slen
  if !okay then
    let r := c.write now c.send.nxt []
    some (r.conn, [r.seg], r.conn.availablity)
  else if !tcph.ack then
    let c1 : Connection := { c with recv := { c.recv with nxt := wrapping_add seqn slen } }
    if tcph.syn then
      if data.isEmpty then
        let c2 : Connection := { c1 with recv := { c1.recv with nxt := wrapping_add seqn 1 } }
        some (c2, [], c2.availablity)
      else none
    else some (c1, [], c1.availablity)
  else
    let ackn := tcph.acknowledgment_number
    let c1 :=
      if c.state = State.SyncRcvd then
        if is_between_wrapped (wrapping_sub c.send.una 1) ackn (wrapping_add c.send.nxt 1) then
          { c with state := State.Estab }
        else c
      else c
    let c2 :=
      if c1.state = State.Estab ∨ c1.state = State.FinWait1 ∨ c1.state = State.FinWait2 then
        let cA :=
          if is_between_wrapped c1.send.una ackn (wrapping_add c1.send.nxt 1) then
            let cB :=
              if ¬c1.unacked.isEmpty then
                let data_start :=
                  if c1.send.una = c1.send.iss then wrapping_add c1.send.una 1 else c1.send.una
                let acked_data_end := min c1.unacked.length (wrapping_sub ackn data_start)
                let pr := retainUpdate c1.send.una ackn now c1.timer.send_tiems c1.timer.srtt
                { c1 with unacked := c1.unacked.drop acked_data_end,
                          timer := { c1.timer with send_tiems := pr.1, srtt := pr.2 } }
              else c1
            { cB with send := { cB.send with una := ackn } }
          else c1
        if cA.state = State.Estab then
          { cA with tcp := { cA.tcp with fin := true }, state := State.FinWait1 }
        else cA
      else c1
    let c3 :=
      if c2.state = State.FinWait1 then
        match c2.closed_at with
        | some closedAt =>
          if c2.send.una = wrapping_add closedAt 1 then { c2 with state := State.FinWait2 }
          else c2
        | none => c2
      else c2
    let stepF : Option (Connection × List Segment) :=
      if ¬data.isEmpty then
        if c3.state = State.Estab ∨ c3.state = State.FinWait1 ∨ c3.state = State.FinWait2 then
          let u0 := wrapping_sub c3.recv.nxt seqn
          let uOpt : Option Nat :=
            if u0 > data.length then
              if u0 = data.length + 1 then some 0 else none
            else some u0
          match uOpt with
          | none => none
          | some unread_data_at =>
            let c4 : Connection :=
              { c3 with incoming := c3.incoming ++ data.drop unread_data_at,
                        recv := { c3.recv with
                          nxt := wrapping_add seqn (if tcph.fin then 1 else 0) } }
            let r := c4.write now c4.send.nxt []
            some (r.conn, [r.seg])
        else some (c3, [])
      else some (c3, [])
    match stepF with
    | none => none
    | some (c4, segs) =>
      if c4.state = State.FinWait2 ∧ tcph.fin then
        let c5 : Connection := { c4 with recv := { c4.recv with nxt := wrapping_add c4.recv.nxt 1 } }
        let r := c5.write now c5.send.nxt []
        let c6 : Connection := { r.conn with state := State.TimeWait }
        some (c6, segs ++ [r.seg], c6.availablity)
      else some (c4, segs, c4.availablity)

/-- `Connection::accept` (tcp.rs lines 424-486).  Returns `none` when the
SYN flag is clear (the source returns `Ok(None)`), otherwise the freshly
constructed connection after its SYN-ACK emission, together with that
emitted segment.  `recv.nxt` is `peer_seq + 1` (release-profile wrap). -/
def Connection.accept (now iphSource iphDestination : Nat) (tcph : TcpHeader)
    (_data : List Nat) : Option (Connection × Segment) :=
  if !tcph.syn then none
  else
    let iss := 0
    let wnd := 10
    let c : Connection :=
      { state := State.SyncRcvd,
        send := { iss := iss, una := iss, nxt := iss, wnd := wnd,
                  up := false, wl1 := 0, wl2 := 0 },
        recv := { nxt := wrapping_add tcph.sequence_number 1, wnd := tcph.window_size,
                  irs := tcph.sequence_number, up := false },
        ip := { source := iphDestination, destination := iphSource, ttl := 64 },
        tcp := { source_port := tcph.destination_port,
                 destination_port := tcph.source_port,
                 sequence_number := iss, acknowledgment_number := 0,
                 syn := true, fin := false, ack := true, rst := false,
                 window_size := wnd },
        timer := { last_send := now, send_tiems := [], srtt := 60000000000 },
        incoming := [], unacked := [], closed := false, closed_at := none }
    let r := c.write now c.send.nxt []
    some (r.conn, r.seg)

/-- `lib.rs::SENDQUEUE_SIZE`. -/
def SENDQUEUE_SIZE : Nat := 1024

/-- `TcpStream::write` from `lib.rs` (lines 209-227), as a function of
the connection-table lookup result for the stream's quad and the caller
buffer: error paths leave the connection untouched. -/
def TcpStream.write (copt : Option Connection) (buf : List Nat) :
    Except IoErr (Connection × Nat) :=
  match copt with
  | none => Except.error IoErr.ConnectionAborted
  | some c =>
    if c.unacked.length ≥ SENDQUEUE_SIZE then Except.error IoErr.WouldBlock
    else
      let nwrite := min buf.length (SENDQUEUE_SIZE - c.unacked.length)
      Except.ok ({ c with unacked := c.unacked ++ buf.take nwrite }, nwrite)

/-- Stream write as worded by the specification: fail with aborted when
the connection is gone; otherwise, when fewer than `SENDQUEUE_SIZE`
bytes are queued, append exactly `min (buf.length) (SENDQUEUE_SIZE - queued)`
bytes from the front of `buf` to `unacked` and return that count; when
the queue already holds `SENDQUEUE_SIZE` or more bytes, fail with
would-block and leave `unacked` unchanged. -/
def stream_write_spec : Option Connection → List Nat → Except IoErr (Connection × Nat)
  | none, _ => Except.error IoErr.ConnectionAborted
  | some c, buf =>
    if c.unacked.length < SENDQUEUE_SIZE then
      let n := min buf.length (SENDQUEUE_SIZE - c.unacked.length)
      Except.ok ({ c with unacked := c.unacked ++ buf.take n }, n)
    else Except.error IoErr.WouldBlock

/-- The SYN that opens the connection in the end-to-end scenarios:
seq 1000, window 64240, from peer port 44444 to local port 9000. -/
def syn_hdr : TcpHeader :=
  { source_port := 44444, destination_port := 9000,
    sequence_number := 1000, acknowledgment_number := 0,
    syn := true, fin := false, ack := false, rst := false,
    window_size := 64240 }

/-- The connection produced by `Connection::accept` on `syn_hdr`
(the state reachable immediately after the passive open). -/
def after_accept : Option Connection :=
  (Connection.accept 5 2886729729 2886729730 syn_hdr []).map Prod.fst

/-- An ESTABLISHED connection as in the payload-delivery scenario:
`recv.nxt = 1001`, `recv.wnd = 10`, `send.una = send.nxt = 1`,
empty queues. -/
def estab_1001 : Connection :=
  { state := State.Estab,
    send := { iss := 0, una := 1, nxt := 1, wnd := 10,
              up := false, wl1 := 0, wl2 := 0 },
    recv := { nxt := 1001, wnd := 10, irs := 1000, up := false },
    ip := { source := 2886729729, destination := 2886729730, ttl := 64 },
    tcp := { source_port := 9000, destination_port := 44444,
             sequence_number := 1, acknowledgment_number := 1001,
             syn := false, fin := false, ack := true, rst := false,
             window_size := 10 },
    timer := { last_send := 5, send_tiems := [], srtt := 60000000000 },
    closed := false, incoming := [], unacked := [], closed_at := none }

/-- The PSH-ACK of the payload-delivery scenario: seq 1001, ack 1,
five payload bytes. -/
def hello_hdr : TcpHeader :=
  { source_port := 44444, destination_port := 9000,
    sequence_number := 1001, acknowledgment_number := 1,
    syn := false, fin := false, ack := true, rst := false,
    window_size := 64240 }

/-- The payload bytes of the delivery scenario. -/
def hello_data : List Nat := [104, 101, 108, 108, 111]

/-- The ESTABLISHED connection of the out-of-window scenario:
`recv.nxt = 1006`, `recv.wnd = 10`. -/
def estab_1006 : Connection :=
  { estab_1001 with recv := { nxt := 1006, wnd := 10, irs := 1000, up := false } }

/-- The out-of-window segment of that scenario: seq 2000, ack 1, one
payload byte. -/
def oow_hdr : TcpHeader :=
  { hello_hdr with sequence_number := 2000 }

/-- A connection with `send.nxt = 100`, used to exercise the
`wrapping_lt` bump of `send.nxt` inside `Connection::write`. -/
def nxt100 : Connection :=
  { estab_1001 with
    send := { iss := 0, una := 1, nxt := 100, wnd := 10,
              up := false, wl1 := 0, wl2 := 0 } }

/-- Rust `2 ^ 31` is XOR, which evaluates to 29. -/
theorem xor_two_31 : Nat.xor 2 31 = 29 := by decide

/-- Looking up a key just inserted into the sorted association list
returns the inserted value. -/
theorem btLookup_btInsert (k v : Nat) (m : List (Nat × Nat)) :
    btLookup k (btInsert k v m) = some v := by
  induction m with
  | nil => simp [btInsert, btLookup]
  | cons hd tl ih =>
    obtain ⟨k2, v2⟩ := hd
    by_cases h1 : k < k2
    · simp [btInsert, btLookup, h1]
    · by_cases h2 : k = k2
      · simp [btInsert, btLookup, h1, h2]
      · simp [btInsert, btLookup, h1, h2, ih]

/-- C1: the claim states that `wrapping_lt a b` returns true iff
`(a - b) mod 2^32 > 2^31`.  The code compares against the Rust
expression `2 ^ 31`, which is bitwise XOR (29), so at `a = 30, b = 0`
the code returns true while `(30 - 0) mod 2^32 = 30` does not exceed
`2^31`: the claim is false of the code. -/
theorem c1_wrapping_lt_xor_slip :
    wrapping_lt 30 0 = true ∧ wrapping_sub 30 0 = 30 ∧ ¬(30 > 2 ^ 31) :=
  ⟨by decide, by decide, by decide⟩

/-- C2: from ESTABLISHED with `recv.nxt = 1001`, processing the
acceptable segment seq 1001 / ack 1 with five payload bytes and no FIN
appends the payload to `incoming` but leaves `recv.nxt = 1001` and emits
an acknowledgment carrying 1001 — not 1006 as the claim states: the
source sets `recv.nxt = seqn + (fin ? 1 : 0)` without adding the payload
length. -/
theorem c2_recv_nxt_not_advanced_over_data :
    ((estab_1001.on_packet 6 hello_hdr hello_data).map
      (fun r => (r.1.recv.nxt, r.2.1.map Segment.ack, r.1.incoming))) =
      some (1001, [1001], hello_data) := by decide

/-- C3: `on_tick`, invoked on the connection exactly as `accept` leaves
it (SYN-RECEIVED, `send.una = 0`, `send.nxt = 1`, empty `unacked`),
panics: `unacked.len() - nunacked` underflows (debug abort) and the
release profile then takes the out-of-bounds slice
`payload[1..10]` of the empty queue.  The embedding returns `none` for
the panic, refuting the claim that `on_tick` never panics in a reachable
state. -/
theorem c3_on_tick_panics_after_accept :
    (after_accept.map (fun c => c.on_tick 5)) = some none := by decide

/-- C4 counterexample: in the reachable state immediately after
`accept`, the claimed invariant `|unacked| ≥ send.nxt - send.una` is
false: the queue is empty while `send.nxt - send.una = 1` (the SYN
occupies a sequence number that is never stored in `unacked`). -/
theorem c4_invariant_fails_after_accept :
    (after_accept.map
      (fun c => decide (c.unacked.length ≥ wrapping_sub c.send.nxt c.send.una))) =
      some false := by decide

/-- C4 amended: in the state immediately after any successful `accept`,
`|unacked| + 1 = send.nxt - send.una` (wrapping): the emitted SYN
consumes exactly one sequence number beyond the bytes queued in
`unacked`, so the claimed inequality fails there by exactly one. -/
theorem c4_unacked_plus_syn_after_accept (now s d : Nat) (tcph : TcpHeader)
    (data : List Nat) (h : tcph.syn = true) :
    ((Connection.accept now s d tcph data).map
      (fun p => (p.1.unacked.length + 1, wrapping_sub p.1.send.nxt p.1.send.una))) =
      some (1, 1) := by
  simp [Connection.accept, Connection.write, h, wrapping_add, wrapping_sub,
    wrapping_lt, xor_two_31, M32]

/-- C4 witness: the amended statement evaluated on the scenario SYN. -/
theorem c4_unacked_plus_syn_after_accept_witness :
    syn_hdr.syn = true ∧
    ((Connection.accept 5 2886729729 2886729730 syn_hdr []).map
      (fun p => (p.1.unacked.length + 1, wrapping_sub p.1.send.nxt p.1.send.una))) =
      some (1, 1) :=
  ⟨rfl, c4_unacked_plus_syn_after_accept 5 2886729729 2886729730 syn_hdr [] rfl⟩

/-- C5 counterexample: with `recv.nxt = 2^32 - 1` and the positive
receive window 1, the segment at seq 0 of length 1 is rejected by the
acceptance test, so the claim does not hold for every positive window. -/
theorem c5_wrap_rejected_at_window_one :
    segment_okay 4294967295 1 0 1 = false := by decide

/-- C5 amended: with `recv.nxt = 2^32 - 1` and a receive window between
2 and 65535 (the values reachable from a peer-advertised 16-bit window),
the segment at seq 0 of length 1 is judged acceptable. -/
theorem c5_wrap_accepted_window_ge_two (wnd : Nat) (h2 : 2 ≤ wnd) (h3 : wnd ≤ 65535) :
    segment_okay 4294967295 wnd 0 1 = true := by
  have hw : ¬wnd = 0 := by omega
  simp [segment_okay, is_between_wrapped, wrapping_lt, wrapping_sub, wrapping_add,
    M32, hw, xor_two_31]
  omega

/-- C5 witness: the amended statement at window 10 (the window the
implementation itself advertises). -/
theorem c5_wrap_accepted_window_ge_two_witness :
    2 ≤ 10 ∧ 10 ≤ 65535 ∧ segment_okay 4294967295 10 0 1 = true :=
  ⟨by decide, by decide, c5_wrap_accepted_window_ge_two 10 (by decide) (by decide)⟩

/-- C6: with a zero receive window the acceptance test accepts a segment
iff its segment length is 0 and its sequence number equals `recv.nxt`;
in particular every segment with positive length is rejected. -/
theorem c6_zero_window_acceptance (recvNxt seqn slen : Nat) :
    segment_okay recvNxt 0 seqn slen = true ↔ slen = 0 ∧ seqn = recvNxt := by
  by_cases h : slen = 0 <;> simp [segment_okay, h]

/-- C7: the claimed particular instance diverges.  From ESTABLISHED with
`recv.nxt = 1006` and window 10, the segment at seq 2000 with one data
byte does not fail the acceptance test — `(2000 - 1016) mod 2^32 = 984`
exceeds the XOR-slipped constant 29 — so instead of the claimed bare ACK
carrying 1006 with `incoming` unchanged, `on_packet` proceeds to the
data-delivery step and panics at the
`assert_eq!(unread_data_at, data.len() + 1)`. -/
theorem c7_out_of_window_segment_panics :
    segment_okay estab_1006.recv.nxt estab_1006.recv.wnd oow_hdr.sequence_number
        (seg_len 1 oow_hdr.syn oow_hdr.fin) = true ∧
      estab_1006.on_packet 6 oow_hdr [120] = none :=
  ⟨by decide, by decide⟩

/-- C8 counterexample: with `send.nxt = 100` and both prototype flags
clear, `write` at `seqn = 50` with an empty payload moves `send.nxt`
backward to 50, although under the claimed wrapping comparison
`send.nxt < next_seq` is false there (`(100 - 50) mod 2^32 = 50` does
not exceed `2^31`), so `send.nxt` should have stayed 100. -/
theorem c8_send_nxt_moves_backward :
    (nxt100.write 6 50 []).conn.send.nxt = 50 ∧ ¬(wrapping_sub 100 50 > 2 ^ 31) :=
  ⟨by decide, by decide⟩

/-- C8 amended: after every call to `write`, the emission instant is
recorded under `seqn` in `send_tiems`, a set SYN or FIN flag is cleared
with `send.nxt` advanced by one each, the returned byte count is
`min |payload| 1460`, and `send.nxt` is set to
`next_seq = seqn + bytes_written` exactly when
`(send.nxt - next_seq) mod 2^32 > 29` — the code's `wrapping_lt`, whose
comparison constant `2 ^ 31` is Rust XOR, i.e. 29, rather than the
claimed `2^31`. -/
theorem c8_write_postconditions (c : Connection) (now seqn : Nat) (payload : List Nat) :
    btLookup seqn (Connection.write c now seqn payload).conn.timer.send_tiems = some now ∧
    (Connection.write c now seqn payload).conn.tcp.syn = false ∧
    (Connection.write c now seqn payload).conn.tcp.fin = false ∧
    (Connection.write c now seqn payload).payload_bytes = min payload.length 1460 ∧
    (Connection.write c now seqn payload).conn.send.nxt =
      (let n1 := if c.tcp.syn = true then wrapping_add c.send.nxt 1 else c.send.nxt
       let n2 := if c.tcp.fin = true then wrapping_add n1 1 else n1
       let nq := wrapping_add seqn (min payload.length 1460)
       if wrapping_sub n2 nq > 29 then nq else n2) := by
  cases hs : c.tcp.syn <;> cases hf : c.tcp.fin <;>
    simp [Connection.write, hs, hf, btLookup_btInsert, wrapping_lt, xor_two_31]

/-- C9: `TcpStream::write` behaves exactly as the specification words
it: aborted when the connection is gone; would-block (connection
untouched) when `|unacked| ≥ SENDQUEUE_SIZE`; otherwise it appends
exactly `min |buf| (SENDQUEUE_SIZE - |unacked|)` bytes from the front of
`buf` and returns that count. -/
theorem c9_stream_write_matches_spec (copt : Option Connection) (buf : List Nat) :
    TcpStream.write copt buf = stream_write_spec copt buf := by
  cases copt with
  | none => rfl
  | some c =>
    by_cases h : c.unacked.length ≥ SENDQUEUE_SIZE
    · have h2 : ¬c.unacked.length < SENDQUEUE_SIZE := by omega
      simp [TcpStream.write, stream_write_spec, h, h2]
    · have h2 : c.unacked.length < SENDQUEUE_SIZE := by omega
      simp [TcpStream.write, stream_write_spec, h, h2]

/-- C10: `close` always sets the `closed` flag, even on its error path:
from SYN-RECEIVED or ESTABLISHED it moves to FIN-WAIT-1 and succeeds,
from FIN-WAIT-1 or FIN-WAIT-2 it leaves the state unchanged and
succeeds, and from TIME-WAIT it returns a connection-aborted error while
the `closed` flag has nevertheless been set. -/
theorem c10_close_always_sets_closed (c : Connection) :
    (Connection.close c).2.closed = true ∧
    ((Connection.close c).1 = Except.error IoErr.ConnectionAborted ↔
      c.state = State.TimeWait) ∧
    (Connection.close c).2.state =
      (if c.state = State.SyncRcvd ∨ c.state = State.Estab then State.FinWait1
       else c.state) := by
  obtain ⟨se, re, ip, tc, ti, st, cl, inc, un, ca⟩ := c
  cases st <;> simp [Connection.close]

end RustTcp
